import Mathlib

/-!
Verification of the resume-hero repository's two front-end scripts:
the two-number calculator (`frontend/script.js` of the calculator app)
and the resume upload / parse viewer (`src/frontend/script.js`).

Strings handled character-by-character by the scripts (the numeric input
fields) are embedded as `List Char`; rendered markup is embedded as
`String`.  DOM state mutated by the scripts is embedded as explicit state
records threaded through the event-handler functions.  Each HTTP request a
handler issues is recorded in a `requests` list together with a snapshot of
the busy flags at the moment of sending; the response a handler observes is
passed in as an explicit outcome parameter.
-/

namespace Calc

/-- JavaScript whitespace characters relevant to `trim` / `parseFloat`
(ASCII portion; the scripts never produce non-ASCII whitespace). -/
def jsWhitespace (c : Char) : Bool :=
  c == ' ' || c == '\t' || c == '\n' || c == '\r' || c == '\x0b' || c == '\x0c'

/-- Model of ECMAScript `String.prototype.trim`: drop whitespace from both
ends. -/
def jsTrim (cs : List Char) : List Char :=
  ((cs.dropWhile jsWhitespace).reverse.dropWhile jsWhitespace).reverse

/-- True when a character sequence begins with a `StrUnsignedDecimalLiteral`,
i.e. a digit, a dot followed by a digit, or the literal `Infinity`. -/
def startsStrNumber (cs : List Char) : Bool :=
  match cs with
  | [] => false
  | c :: rest =>
    c.isDigit || (c == '.' && (match rest with | d :: _ => d.isDigit | [] => false))
      || List.isPrefixOf ['I','n','f','i','n','i','t','y'] cs

/-- Model of the ECMAScript `parseFloat` NaN test: `parseFloatDefined cs`
is `!isNaN(parseFloat(cs))`, i.e. after skipping leading whitespace and an
optional sign, the string starts a decimal literal. -/
def parseFloatDefined (cs : List Char) : Bool :=
  match cs.dropWhile jsWhitespace with
  | [] => false
  | c :: rest =>
    if c == '+' || c == '-' then startsStrNumber rest
    else startsStrNumber (c :: rest)

/-- Characters kept by the regex replace `value.replace(/[^0-9.-]/g, '')`
in `validateInput`. -/
def numericChar (c : Char) : Bool :=
  c.isDigit || c == '.' || c == '-'

/-- Model of ECMAScript `String.prototype.split('.')`: split a character
sequence at every dot, keeping empty segments (`split` on an empty string
yields one empty segment). -/
def splitOnDot : List Char → List (List Char)
  | [] => [[]]
  | c :: rest =>
    if c = '.' then [] :: splitOnDot rest
    else
      match splitOnDot rest with
      | [] => [[c]]
      | p :: ps => (c :: p) :: ps

/-- Translation of `validateInput` from the calculator script: strip every
character outside `[0-9.-]`, then if the result holds more than one dot,
keep the first dot and concatenate the remaining segments
(`parts[0] + '.' + parts.slice(1).join('')`); the returned list is the new
value of the input field. -/
def validateInput (value : List Char) : List Char :=
  let numericValue := value.filter numericChar
  let parts := splitOnDot numericValue
  if parts.length > 2 then
    match parts with
    | [] => []
    | p :: ps => p ++ ['.'] ++ ps.flatten
  else
    numericValue

/-- Translation of `updateButtonState` from the calculator script: returns
the new `addButton.disabled` flag computed from the two current field
values (`false`, i.e. enabled, exactly when both values pass the
`!isNaN(parseFloat(...))` test and neither is empty after trimming). -/
def updateButtonState (v1 v2 : List Char) : Bool :=
  if parseFloatDefined v1 && parseFloatDefined v2
      && !(jsTrim v1).isEmpty && !(jsTrim v2).isEmpty then
    false
  else
    true

/-- Snapshot of the Add button recorded when the `/add` request is issued. -/
structure CalcRequest where
  disabledAtSend : Bool
  labelAtSend : String
  deriving DecidableEq

/-- DOM state touched by the calculator script: the Add button's
`disabled` flag and label, the result div's text and class, and the list
of issued `/add` requests. -/
structure CalcState where
  addDisabled : Bool
  addLabel : String
  resultText : String
  resultClass : String
  requests : List CalcRequest
  deriving DecidableEq

/-- Outcome of the `fetch` to `/add` observed by `handleAddition`: a
network-level failure (fetch or JSON parsing throws), a non-2xx response
(`response.ok` false), or a 2xx JSON body whose `result` field renders as
the given text. -/
inductive AddOutcome where
  | networkError : AddOutcome
  | httpError : Nat → AddOutcome
  | ok : String → AddOutcome
  deriving DecidableEq

/-- Translation of `showResult` from the calculator script. -/
def showResult (result : String) (st : CalcState) : CalcState :=
  { st with resultText := "Result: " ++ result, resultClass := "result show" }

/-- Translation of `showError` from the calculator script. -/
def calcShowError (message : String) (st : CalcState) : CalcState :=
  { st with resultText := message, resultClass := "result show error" }

/-- Translation of `handleAddition` from the calculator script, with the
current field values and the fetch outcome passed explicitly.  When either
value fails the `isNaN(parseFloat(...))` check it shows a validation
message and returns; otherwise it disables the button, relabels it
`Calculating...`, issues the request, renders the outcome, and in the
`finally` block re-enables the button, restores the label and reruns
`updateButtonState`. -/
def handleAddition (v1 v2 : List Char) (outcome : AddOutcome) (st : CalcState) :
    CalcState :=
  if !(parseFloatDefined v1) || !(parseFloatDefined v2) then
    calcShowError "Please enter valid numbers" st
  else
    let st1 : CalcState := { st with addDisabled := true, addLabel := "Calculating..." }
    let st2 : CalcState :=
      { st1 with requests := st1.requests ++ [⟨st1.addDisabled, st1.addLabel⟩] }
    let st3 : CalcState :=
      match outcome with
      | .ok result => showResult result st2
      | .httpError _ =>
          calcShowError "Failed to calculate. Please check if the server is running." st2
      | .networkError =>
          calcShowError "Failed to calculate. Please check if the server is running." st2
    let st4 : CalcState := { st3 with addDisabled := false, addLabel := "Add" }
    { st4 with addDisabled := updateButtonState v1 v2 }

/-- Translation of `handleKeyPress` from the calculator script: the Enter
key invokes `handleAddition` (regardless of the button's disabled state);
any other key leaves the state unchanged. -/
def handleKeyPress (key : String) (v1 v2 : List Char) (outcome : AddOutcome)
    (st : CalcState) : CalcState :=
  if key = "Enter" then handleAddition v1 v2 outcome st else st

end Calc

namespace Resume

/-- Model of ECMAScript `String.prototype.includes`: `jsIncludes hay sub`
is true when `sub` occurs contiguously inside `hay`. -/
def jsIncludes (hay sub : String) : Bool :=
  hay.data.tails.any (fun t => List.isPrefixOf sub.data t)

/-- File metadata read by the resume script (`file.name`, `file.size`,
`file.type`). -/
structure File where
  name : String
  size : Nat
  type : String
  deriving DecidableEq

/-- Contact entry of a `ResumeData` payload; only `value` is read. -/
structure Contact where
  value : String
  deriving DecidableEq

/-- Education entry of a `ResumeData` payload.  Optional string fields are
embedded as `String` with `""` standing for absent, matching JavaScript
truthiness of the guards in the renderer. -/
structure Education where
  institution : String
  degree : String
  field_of_study : String
  start_date : String
  end_date : String
  deriving DecidableEq

/-- Work-experience entry of a `ResumeData` payload. -/
structure WorkExperience where
  company : String
  position : String
  start_date : String
  end_date : String
  description : String
  deriving DecidableEq

/-- Skill entry of a `ResumeData` payload; only `name` is read. -/
structure Skill where
  name : String
  deriving DecidableEq

/-- Project entry of a `ResumeData` payload. -/
structure Project where
  name : String
  description : String
  technologies : List String
  deriving DecidableEq

/-- Certification entry of a `ResumeData` payload. -/
structure Certification where
  name : String
  issuer : String
  deriving DecidableEq

/-- Language entry of a `ResumeData` payload; only `name` is read. -/
structure Language where
  name : String
  deriving DecidableEq

/-- The `resume_data` payload consumed read-only by the renderer. -/
structure ResumeData where
  full_name : String
  contact_info : List Contact
  summary : String
  education : List Education
  work_experience : List WorkExperience
  skills : List Skill
  projects : List Project
  certifications : List Certification
  languages : List Language
  deriving DecidableEq

/-- Concatenation of a list of markup fragments, as produced by the
script's `forEach` loops appending to the `html` accumulator. -/
def strConcat : List String → String
  | [] => ""
  | s :: rest => s ++ strConcat rest

/-- Model of ECMAScript `Array.prototype.join(sep)`. -/
def joinStrs (sep : String) : List String → String
  | [] => ""
  | [s] => s
  | s :: rest => s ++ sep ++ joinStrs sep rest

/-- Date-range value built by
`[start_date, end_date].filter(Boolean).join(' - ')` in the renderer. -/
def joinDates (s e : String) : String :=
  joinStrs " - " (([s, e]).filter (fun x => x != ""))

/-- Dates line of an education or work-experience entry (the guarded
`Dates:` div, identical in both blocks of the renderer); empty markup when
both dates are absent. -/
def datesLineHtml (s e : String) : String :=
  if s ≠ "" ∨ e ≠ "" then
    "<div><span class=\"data-label\">Dates:</span> " ++ joinDates s e ++ "</div>"
  else ""

/-- Section wrapper emitted for every category:
`<div class="data-section"><div class="section-title">TITLE</div>...inner...</div>`
(the incidental indentation whitespace of the source's template literals is
elided throughout the rendering model). -/
def sectionHtml (title inner : String) : String :=
  "<div class=\"data-section\"><div class=\"section-title\">" ++ title ++ "</div>"
    ++ inner ++ "</div>"

/-- Name item of the Personal Information section. -/
def nameItemHtml (d : ResumeData) : String :=
  if d.full_name ≠ "" then
    "<div class=\"data-item\"><span class=\"data-label\">Name:</span><span class=\"data-value\">"
      ++ d.full_name ++ "</span></div>"
  else ""

/-- Contact item span emitted per contact entry. -/
def contactItemHtml (c : Contact) : String :=
  "<span class=\"contact-item\">" ++ c.value ++ "</span>"

/-- Contact block of the Personal Information section. -/
def contactBlockHtml (d : ResumeData) : String :=
  if d.contact_info.length > 0 then
    "<div class=\"data-item\"><span class=\"data-label\">Contact:</span><div class=\"contact-info\">"
      ++ strConcat (d.contact_info.map contactItemHtml) ++ "</div></div>"
  else ""

/-- Inner markup of the Personal Information section. -/
def personalBody (d : ResumeData) : String :=
  nameItemHtml d ++ contactBlockHtml d

/-- Personal Information section, emitted when `full_name` is truthy or
`contact_info` is non-empty. -/
def personalInfoHtml (d : ResumeData) : String :=
  if d.full_name ≠ "" ∨ d.contact_info.length > 0 then
    sectionHtml "Personal Information" (personalBody d)
  else ""

/-- Inner markup of the Summary section. -/
def summaryBody (d : ResumeData) : String :=
  "<div class=\"data-item\">" ++ d.summary ++ "</div>"

/-- Summary section, emitted when `summary` is truthy. -/
def summaryHtml (d : ResumeData) : String :=
  if d.summary ≠ "" then sectionHtml "Summary" (summaryBody d) else ""

/-- Markup of one education entry: optional institution, degree, field and
dates lines. -/
def educationEntryHtml (e : Education) : String :=
  "<div class=\"data-item\">"
    ++ (if e.institution ≠ "" then
          "<div><span class=\"data-label\">Institution:</span> " ++ e.institution ++ "</div>"
        else "")
    ++ (if e.degree ≠ "" then
          "<div><span class=\"data-label\">Degree:</span> " ++ e.degree ++ "</div>"
        else "")
    ++ (if e.field_of_study ≠ "" then
          "<div><span class=\"data-label\">Field:</span> " ++ e.field_of_study ++ "</div>"
        else "")
    ++ datesLineHtml e.start_date e.end_date
    ++ "</div>"

/-- Inner markup of the Education section. -/
def educationBody (d : ResumeData) : String :=
  strConcat (d.education.map educationEntryHtml)

/-- Education section, emitted when `education` is non-empty. -/
def educationHtml (d : ResumeData) : String :=
  if d.education.length > 0 then sectionHtml "Education" (educationBody d) else ""

/-- Markup of one work-experience entry: optional company, position, dates
and description lines. -/
def workEntryHtml (w : WorkExperience) : String :=
  "<div class=\"data-item\">"
    ++ (if w.company ≠ "" then
          "<div><span class=\"data-label\">Company:</span> " ++ w.company ++ "</div>"
        else "")
    ++ (if w.position ≠ "" then
          "<div><span class=\"data-label\">Position:</span> " ++ w.position ++ "</div>"
        else "")
    ++ datesLineHtml w.start_date w.end_date
    ++ (if w.description ≠ "" then
          "<div><span class=\"data-label\">Description:</span> " ++ w.description ++ "</div>"
        else "")
    ++ "</div>"

/-- Inner markup of the Work Experience section. -/
def workBody (d : ResumeData) : String :=
  strConcat (d.work_experience.map workEntryHtml)

/-- Work Experience section, emitted when `work_experience` is non-empty. -/
def workHtml (d : ResumeData) : String :=
  if d.work_experience.length > 0 then sectionHtml "Work Experience" (workBody d) else ""

/-- Inner markup of the Skills section (a `skills-list` of tag spans). -/
def skillsBody (d : ResumeData) : String :=
  "<div class=\"data-item\"><div class=\"skills-list\">"
    ++ strConcat (d.skills.map (fun s => "<span class=\"skill-tag\">" ++ s.name ++ "</span>"))
    ++ "</div></div>"

/-- Skills section, emitted when `skills` is non-empty. -/
def skillsHtml (d : ResumeData) : String :=
  if d.skills.length > 0 then sectionHtml "Skills" (skillsBody d) else ""

/-- Markup of one project entry: optional name and description lines and a
technologies line when the list is non-empty. -/
def projectEntryHtml (p : Project) : String :=
  "<div class=\"data-item\">"
    ++ (if p.name ≠ "" then
          "<div><span class=\"data-label\">Project:</span> " ++ p.name ++ "</div>"
        else "")
    ++ (if p.description ≠ "" then
          "<div><span class=\"data-label\">Description:</span> " ++ p.description ++ "</div>"
        else "")
    ++ (if p.technologies.length > 0 then
          "<div><span class=\"data-label\">Technologies:</span> "
            ++ joinStrs ", " p.technologies ++ "</div>"
        else "")
    ++ "</div>"

/-- Inner markup of the Projects section. -/
def projectsBody (d : ResumeData) : String :=
  strConcat (d.projects.map projectEntryHtml)

/-- Projects section, emitted when `projects` is non-empty. -/
def projectsHtml (d : ResumeData) : String :=
  if d.projects.length > 0 then sectionHtml "Projects" (projectsBody d) else ""

/-- Markup of one certification entry: optional name and issuer lines. -/
def certificationEntryHtml (c : Certification) : String :=
  "<div class=\"data-item\">"
    ++ (if c.name ≠ "" then
          "<div><span class=\"data-label\">Certification:</span> " ++ c.name ++ "</div>"
        else "")
    ++ (if c.issuer ≠ "" then
          "<div><span class=\"data-label\">Issuer:</span> " ++ c.issuer ++ "</div>"
        else "")
    ++ "</div>"

/-- Inner markup of the Certifications section. -/
def certificationsBody (d : ResumeData) : String :=
  strConcat (d.certifications.map certificationEntryHtml)

/-- Certifications section, emitted when `certifications` is non-empty. -/
def certificationsHtml (d : ResumeData) : String :=
  if d.certifications.length > 0 then
    sectionHtml "Certifications" (certificationsBody d)
  else ""

/-- Inner markup of the Languages section (one `data-item` of tag spans). -/
def languagesBody (d : ResumeData) : String :=
  "<div class=\"data-item\">"
    ++ strConcat (d.languages.map (fun l => "<span class=\"skill-tag\">" ++ l.name ++ "</span>"))
    ++ "</div>"

/-- Languages section, emitted when `languages` is non-empty. -/
def languagesHtml (d : ResumeData) : String :=
  if d.languages.length > 0 then sectionHtml "Languages" (languagesBody d) else ""

/-- Translation of `displayResumeData` from the resume script: the full
`html` string accumulated section by section, in source order. -/
def displayResumeData (d : ResumeData) : String :=
  personalInfoHtml d ++ summaryHtml d ++ educationHtml d ++ workHtml d
    ++ skillsHtml d ++ projectsHtml d ++ certificationsHtml d ++ languagesHtml d

end Resume

namespace Resume

/-- Snapshot recorded when the `/parse-resume` request is issued: the file
sent and the loading / disabled flags at the moment of sending. -/
structure ParseRequest where
  file : File
  loadingAtSend : Bool
  disabledAtSend : Bool
  deriving DecidableEq

/-- DOM state touched by the resume script: the selected file, the
visibility flags of the upload area, file-info box, loading indicator,
error box and result section, the Parse button's `disabled` flag, the
error text, the rendered markup, and the list of issued requests. -/
structure ResumeState where
  selectedFile : Option File
  uploadAreaShown : Bool
  fileInfoShown : Bool
  loadingShown : Bool
  parseDisabled : Bool
  errorShown : Bool
  errorMessageText : String
  resultShown : Bool
  resumeHtml : String
  requests : List ParseRequest
  deriving DecidableEq

/-- Translation of `showError` from the resume script. -/
def showError (message : String) (st : ResumeState) : ResumeState :=
  { st with errorShown := true, errorMessageText := message }

/-- Translation of `hideError` from the resume script. -/
def hideError (st : ResumeState) : ResumeState :=
  { st with errorShown := false }

/-- Translation of `hideResult` from the resume script. -/
def hideResult (st : ResumeState) : ResumeState :=
  { st with resultShown := false }

/-- Translation of `showLoading` from the resume script. -/
def showLoading (st : ResumeState) : ResumeState :=
  { st with loadingShown := true, parseDisabled := true }

/-- Translation of `hideLoading` from the resume script. -/
def hideLoading (st : ResumeState) : ResumeState :=
  { st with loadingShown := false, parseDisabled := false }

/-- Translation of `processFile` from the resume script: reject non-PDF
MIME types, then sizes over `10 * 1024 * 1024` bytes; on success store the
file, swap the upload area for the file-info box and clear prior error and
result (the `fileName` / `fileSize` label texts are elided). -/
def processFile (file : File) (st : ResumeState) : ResumeState :=
  if ¬ (jsIncludes file.type "pdf" = true) then
    showError "Please select a PDF file" st
  else if file.size > 10 * 1024 * 1024 then
    showError "File size must be less than 10MB" st
  else
    hideResult (hideError
      { st with selectedFile := some file, uploadAreaShown := false, fileInfoShown := true })

/-- Translation of `resetUpload` from the resume script (the
`fileInput.value = ''` reset of the picker widget is elided). -/
def resetUpload (st : ResumeState) : ResumeState :=
  hideResult (hideError
    { st with selectedFile := none, uploadAreaShown := true, fileInfoShown := false })

/-- JSON body of a 2xx `/parse-resume` response: a `success` flag, an
optional `message` and an optional `resume_data` payload. -/
structure ParseResponse where
  success : Bool
  message : Option String
  resume_data : Option ResumeData
  deriving DecidableEq

/-- Outcome of the `fetch` to `/parse-resume` observed by `handleParse`: a
network-level failure (fetch or JSON parsing throws), a non-2xx response
(`response.ok` false, which the script turns into a thrown error), or a
2xx JSON body. -/
inductive ParseOutcome where
  | networkError : ParseOutcome
  | httpError : Nat → ParseOutcome
  | ok : ParseResponse → ParseOutcome
  deriving DecidableEq

/-- Generic failure message of the resume script's catch block. -/
def genericParseError : String :=
  "Failed to parse resume. Please check if the server is running."

/-- State update performed by the tail of `displayResumeData`: the result
container's markup is replaced (`resumeData.innerHTML = html`) and the
result section is shown. -/
def displayResumeDataState (d : ResumeData) (st : ResumeState) : ResumeState :=
  { st with resumeHtml := displayResumeData d, resultShown := true }

/-- Translation of `handleParse` from the resume script, with the fetch
outcome passed explicitly.  Without a selected file it shows a message and
returns.  Otherwise it shows the loading state, hides prior error and
result, issues the request, then renders `resume_data` on `success`,
surfaces `message || 'Failed to parse resume'` on an unsuccessful body
(JavaScript falsiness: an empty message also falls back), and shows the
generic failure message when the response is non-2xx, the transport fails,
or a successful body carries no `resume_data` (the renderer then throws on
`undefined` and the catch block runs); the `finally` block always hides
the loading state. -/
def handleParse (outcome : ParseOutcome) (st : ResumeState) : ResumeState :=
  match st.selectedFile with
  | none => showError "Please select a file first" st
  | some file =>
    let st1 : ResumeState := hideResult (hideError (showLoading st))
    let st2 : ResumeState :=
      { st1 with requests := st1.requests ++ [⟨file, st1.loadingShown, st1.parseDisabled⟩] }
    let st3 : ResumeState :=
      match outcome with
      | .networkError => showError genericParseError st2
      | .httpError _ => showError genericParseError st2
      | .ok body =>
        if body.success then
          match body.resume_data with
          | some d => displayResumeDataState d st2
          | none => showError genericParseError st2
        else
          showError
            (match body.message with
             | some m => if m = "" then "Failed to parse resume" else m
             | none => "Failed to parse resume") st2
    hideLoading st3

/-- Initial state of the resume script: no file selected, upload area
shown, nothing rendered, no request issued. -/
def initialResumeState : ResumeState :=
  { selectedFile := none
    uploadAreaShown := true
    fileInfoShown := false
    loadingShown := false
    parseDisabled := false
    errorShown := false
    errorMessageText := ""
    resultShown := false
    resumeHtml := ""
    requests := [] }

end Resume

namespace Calc

/-- Shape the spec claims for a sanitized numeric field value: only
characters from `[0-9.-]`, at most one dot, and at most one minus sign,
which must be leading. -/
def claimedSanitizedShape (cs : List Char) : Bool :=
  cs.all numericChar
    && decide (cs.count '.' ≤ 1)
    && decide (cs.count '-' ≤ 1)
    && (cs.drop 1).all (fun c => !(c == '-'))

end Calc

namespace Resume

/-- Titles of the renderer's categories in the fixed source order. -/
def sectionTitlesOrder : List String :=
  ["Personal Information", "Summary", "Education", "Work Experience",
   "Skills", "Projects", "Certifications", "Languages"]

/-- Emptiness test of the category backing a section title, matching the
renderer's guards. -/
def categoryPresent (d : ResumeData) (t : String) : Bool :=
  if t = "Personal Information" then decide (d.full_name ≠ "" ∨ d.contact_info.length > 0)
  else if t = "Summary" then decide (d.summary ≠ "")
  else if t = "Education" then decide (d.education.length > 0)
  else if t = "Work Experience" then decide (d.work_experience.length > 0)
  else if t = "Skills" then decide (d.skills.length > 0)
  else if t = "Projects" then decide (d.projects.length > 0)
  else if t = "Certifications" then decide (d.certifications.length > 0)
  else if t = "Languages" then decide (d.languages.length > 0)
  else false

/-- Title / inner-markup pairs of the sections the renderer emits, in
source order, one per non-empty category. -/
def sections (d : ResumeData) : List (String × String) :=
  (if d.full_name ≠ "" ∨ d.contact_info.length > 0 then
     [("Personal Information", personalBody d)] else [])
  ++ (if d.summary ≠ "" then [("Summary", summaryBody d)] else [])
  ++ (if d.education.length > 0 then [("Education", educationBody d)] else [])
  ++ (if d.work_experience.length > 0 then [("Work Experience", workBody d)] else [])
  ++ (if d.skills.length > 0 then [("Skills", skillsBody d)] else [])
  ++ (if d.projects.length > 0 then [("Projects", projectsBody d)] else [])
  ++ (if d.certifications.length > 0 then [("Certifications", certificationsBody d)] else [])
  ++ (if d.languages.length > 0 then [("Languages", languagesBody d)] else [])

/-- Invariant of the resume script's selected-file reference: when a file
is stored it has a PDF MIME type and is within the 10 MiB cap. -/
def fileInvariant (st : ResumeState) : Prop :=
  ∀ f, st.selectedFile = some f →
    jsIncludes f.type "pdf" = true ∧ f.size ≤ 10 * 1024 * 1024

/-- Valid PDF file fixture. -/
def pdfFile : File :=
  { name := "resume.pdf", size := 1024, type := "application/pdf" }

/-- Oversized non-PDF file fixture. -/
def oversizedTxt : File :=
  { name := "big.txt", size := 10 * 1024 * 1024 + 1, type := "text/plain" }

/-- Resume state with a valid PDF selected and nothing else going on. -/
def selectedState : ResumeState :=
  { initialResumeState with selectedFile := some pdfFile }

/-- Small concrete payload fixture: one work-experience entry, everything
else empty. -/
def acmeResume : ResumeData :=
  { full_name := ""
    contact_info := []
    summary := ""
    education := []
    work_experience := [{ company := "Acme", position := "Eng",
                          start_date := "", end_date := "", description := "" }]
    skills := []
    projects := []
    certifications := []
    languages := [] }

end Resume

/-- Calculator state fixture: idle page with the Add button disabled. -/
def calcDisabledState : Calc.CalcState :=
  { addDisabled := true, addLabel := "Add", resultText := "",
    resultClass := "result", requests := [] }

namespace Calc

theorem splitOnDot_ne_nil (cs : List Char) : splitOnDot cs ≠ [] := by
  induction cs with
  | nil => simp [splitOnDot]
  | cons c rest ih =>
    cases h : splitOnDot rest with
    | nil => exact absurd h ih
    | cons p ps =>
      by_cases hc : c = '.'
      · simp [splitOnDot, hc, h]
      · simp [splitOnDot, hc, h]

theorem splitOnDot_mem_chars (cs : List Char) :
    ∀ p ∈ splitOnDot cs, ∀ c ∈ p, c ∈ cs := by
  induction cs with
  | nil =>
    intro p hp c hc
    simp [splitOnDot] at hp
    subst hp
    simp at hc
  | cons a rest ih =>
    intro p hp c hc
    by_cases ha : a = '.'
    · simp only [splitOnDot, if_pos ha] at hp
      rcases List.mem_cons.mp hp with h | h
      · subst h; simp at hc
      · exact List.mem_cons_of_mem a (ih p h c hc)
    · cases hsplit : splitOnDot rest with
      | nil => exact absurd hsplit (splitOnDot_ne_nil rest)
      | cons q qs =>
        simp only [splitOnDot, if_neg ha, hsplit] at hp
        rcases List.mem_cons.mp hp with h | h
        · subst h
          rcases List.mem_cons.mp hc with h2 | h2
          · subst h2; exact List.mem_cons_self c rest
          · have hq : q ∈ splitOnDot rest := by rw [hsplit]; exact List.mem_cons_self q qs
            exact List.mem_cons_of_mem a (ih q hq c h2)
        · have hmem : p ∈ splitOnDot rest := by rw [hsplit]; exact List.mem_cons_of_mem q h
          exact List.mem_cons_of_mem a (ih p hmem c hc)

theorem splitOnDot_no_dot (cs : List Char) :
    ∀ p ∈ splitOnDot cs, '.' ∉ p := by
  induction cs with
  | nil =>
    intro p hp
    simp [splitOnDot] at hp
    subst hp
    simp
  | cons a rest ih =>
    intro p hp
    by_cases ha : a = '.'
    · simp only [splitOnDot, if_pos ha] at hp
      rcases List.mem_cons.mp hp with h | h
      · subst h; simp
      · exact ih p h
    · cases hsplit : splitOnDot rest with
      | nil => exact absurd hsplit (splitOnDot_ne_nil rest)
      | cons q qs =>
        simp only [splitOnDot, if_neg ha, hsplit] at hp
        rcases List.mem_cons.mp hp with h | h
        · subst h
          intro hmem
          rcases List.mem_cons.mp hmem with h2 | h2
          · exact ha h2.symm
          · have hq : q ∈ splitOnDot rest := by rw [hsplit]; exact List.mem_cons_self q qs
            exact ih q hq h2
        · have hmem : p ∈ splitOnDot rest := by rw [hsplit]; exact List.mem_cons_of_mem q h
          exact ih p hmem

theorem splitOnDot_length (cs : List Char) :
    (splitOnDot cs).length = cs.count '.' + 1 := by
  induction cs with
  | nil => simp [splitOnDot]
  | cons a rest ih =>
    by_cases ha : a = '.'
    · subst ha
      simp [splitOnDot, ih, List.count_cons_self]
    · cases hsplit : splitOnDot rest with
      | nil => exact absurd hsplit (splitOnDot_ne_nil rest)
      | cons q qs =>
        simp only [splitOnDot, if_neg ha, hsplit, List.length_cons]
        rw [List.count_cons_of_ne (Ne.symm ha)]
        rw [hsplit] at ih
        simpa using ih

end Calc

namespace Resume

theorem strConcat_append (l1 l2 : List String) :
    strConcat (l1 ++ l2) = strConcat l1 ++ strConcat l2 := by
  induction l1 with
  | nil => simp [strConcat, String.empty_append]
  | cons s rest ih => simp [strConcat, ih, String.append_assoc]

theorem strConcat_section_if (c : Prop) [Decidable c] (t b : String) :
    (if c then sectionHtml t b else "")
      = strConcat (((if c then [(t, b)] else []) : List (String × String)).map
          (fun p => sectionHtml p.1 p.2)) := by
  split
  · simp [strConcat, String.append_empty]
  · simp [strConcat]

end Resume

namespace Calc

theorem jsTrim_ne_nil_of_parseFloatDefined (cs : List Char)
    (h : parseFloatDefined cs = true) : jsTrim cs ≠ [] := by
  unfold parseFloatDefined at h
  cases ht : cs.dropWhile jsWhitespace with
  | nil => rw [ht] at h; simp at h
  | cons c r =>
    rw [ht] at h
    have h2 : (if c == '+' || c == '-' then startsStrNumber r
        else startsStrNumber (c :: r)) = true := h
    have hc : jsWhitespace c = false := by
      by_cases hsign : (c == '+' || c == '-') = true
      · rcases Bool.or_eq_true_iff.mp hsign with h1 | h1
        · have : c = '+' := by simpa using h1
          subst this; decide
        · have : c = '-' := by simpa using h1
          subst this; decide
      · rw [if_neg (by simpa using hsign)] at h2
        by_contra hw
        have hw' : jsWhitespace c = true := by
          cases hcv : jsWhitespace c
          · exact absurd hcv hw
          · rfl
        simp only [jsWhitespace, Bool.or_eq_true, beq_iff_eq] at hw'
        rcases hw' with ((((h1 | h1) | h1) | h1) | h1) | h1 <;>
          (subst h1; simp [startsStrNumber, List.isPrefixOf] at h2)
    intro hnil
    unfold jsTrim at hnil
    rw [ht] at hnil
    have hdrop : (c :: r).reverse.dropWhile jsWhitespace = [] :=
      List.reverse_eq_nil_iff.mp hnil
    have hall := List.dropWhile_eq_nil_iff.mp hdrop
    have hcmem : c ∈ (c :: r).reverse := by
      rw [List.mem_reverse]; exact List.mem_cons_self c r
    have := hall c hcmem
    rw [hc] at this
    exact Bool.false_ne_true this

end Calc

namespace Calc

/-- C2 (amended): for every keystroke value, the sanitized field value
produced by `validateInput` contains only characters from `[0-9.-]` and at
most one decimal point.  (The original claim's bound of at most one
leading minus sign does not hold; see the counterexample.) -/
theorem validateInput_sanitized (value : List Char) :
    (validateInput value).all numericChar = true
      ∧ (validateInput value).count '.' ≤ 1 := by
  unfold validateInput
  cases hp : splitOnDot (value.filter numericChar) with
  | nil => exact absurd hp (splitOnDot_ne_nil _)
  | cons p ps =>
    simp only [hp]
    by_cases hl : (p :: ps).length > 2
    · rw [if_pos hl]
      constructor
      · rw [List.all_eq_true]
        intro c hcmem
        rcases List.mem_append.mp hcmem with hin | hin
        · rcases List.mem_append.mp hin with hin2 | hin2
          · have hmemp : p ∈ splitOnDot (value.filter numericChar) := by
              rw [hp]; exact List.mem_cons_self p ps
            have : c ∈ value.filter numericChar :=
              splitOnDot_mem_chars _ p hmemp c hin2
            exact List.of_mem_filter this
          · have : c = '.' := by simpa using hin2
            subst this; decide
        · rcases List.mem_flatten.mp hin with ⟨q, hq, hcq⟩
          have hmemq : q ∈ splitOnDot (value.filter numericChar) := by
            rw [hp]; exact List.mem_cons_of_mem p hq
          have : c ∈ value.filter numericChar :=
            splitOnDot_mem_chars _ q hmemq c hcq
          exact List.of_mem_filter this
      · rw [List.count_append, List.count_append]
        have hmemp : p ∈ splitOnDot (value.filter numericChar) := by
          rw [hp]; exact List.mem_cons_self p ps
        have hcp : List.count '.' p = 0 :=
          List.count_eq_zero.mpr (splitOnDot_no_dot _ p hmemp)
        have hcf : List.count '.' ps.flatten = 0 := by
          rw [List.count_eq_zero]
          intro hmem
          rcases List.mem_flatten.mp hmem with ⟨q, hq, hdq⟩
          have hmemq : q ∈ splitOnDot (value.filter numericChar) := by
            rw [hp]; exact List.mem_cons_of_mem p hq
          exact splitOnDot_no_dot _ q hmemq hdq
        simp [hcp, hcf]
    · rw [if_neg hl]
      constructor
      · rw [List.all_eq_true]
        intro c hcmem
        exact List.of_mem_filter hcmem
      · have hlen := splitOnDot_length (value.filter numericChar)
        rw [hp] at hlen
        simp only [List.length_cons] at hlen
        simp only [List.length_cons, gt_iff_lt, not_lt] at hl
        omega

/-- C2 counterexample: the value reached by typing two minus signs is left
as `--` by `validateInput`, which has two minus signs, so the claimed
shape (only digits, at most one dot, at most one leading minus) fails. -/
theorem validateInput_claim_cex :
    claimedSanitizedShape (validateInput ['-', '-']) = false := by decide

end Calc

namespace Calc

/-- C3: after every input event on either numeric field (so on the
sanitized values `validateInput` just wrote back), the Add button is
enabled (`disabled = false`) iff both values pass the parseFloat number
test and neither is empty after trimming. -/
theorem updateButtonState_iff (raw1 raw2 : List Char) :
    updateButtonState (validateInput raw1) (validateInput raw2) = false ↔
      (parseFloatDefined (validateInput raw1) = true
        ∧ parseFloatDefined (validateInput raw2) = true
        ∧ jsTrim (validateInput raw1) ≠ []
        ∧ jsTrim (validateInput raw2) ≠ []) := by
  unfold updateButtonState
  split_ifs with hcond
  · simp only [Bool.and_eq_true, Bool.not_eq_true', List.isEmpty_eq_false] at hcond
    simp only [true_iff]
    exact ⟨hcond.1.1.1, hcond.1.1.2, hcond.1.2, hcond.2⟩
  · simp only [Bool.and_eq_true, Bool.not_eq_true', List.isEmpty_eq_false] at hcond
    constructor
    · intro habs; exact absurd habs (by simp)
    · intro ⟨h1, h2, h3, h4⟩
      exact absurd ⟨⟨⟨h1, h2⟩, h3⟩, h4⟩ hcond

/-- C9: when either field value fails the number test, `handleAddition` —
also when reached through the Enter key with the Add button disabled —
shows the validation message and issues no HTTP request, leaving the rest
of the state (including the button) unchanged. -/
theorem handleAddition_invalid (v1 v2 : List Char) (outcome : AddOutcome)
    (st : CalcState)
    (h : parseFloatDefined v1 = false ∨ parseFloatDefined v2 = false) :
    handleAddition v1 v2 outcome st
        = calcShowError "Please enter valid numbers" st
      ∧ (handleAddition v1 v2 outcome st).resultText = "Please enter valid numbers"
      ∧ (handleAddition v1 v2 outcome st).resultClass = "result show error"
      ∧ (handleAddition v1 v2 outcome st).requests = st.requests
      ∧ (handleAddition v1 v2 outcome st).addDisabled = st.addDisabled
      ∧ handleKeyPress "Enter" v1 v2 outcome st = handleAddition v1 v2 outcome st := by
  have hcond : (!(parseFloatDefined v1) || !(parseFloatDefined v2)) = true := by
    rcases h with h1 | h1 <;> simp [h1]
  unfold handleAddition
  rw [if_pos hcond]
  refine ⟨rfl, rfl, rfl, rfl, rfl, ?_⟩
  unfold handleKeyPress handleAddition
  rw [if_pos rfl, if_pos hcond]

/-- C9 witness: the Enter key with value `-` in the first field (button
disabled) shows the validation message and sends nothing. -/
theorem handleAddition_invalid_witness :
    handleAddition ['-'] ['1'] AddOutcome.networkError calcDisabledState
        = calcShowError "Please enter valid numbers" calcDisabledState
      ∧ (handleAddition ['-'] ['1'] AddOutcome.networkError calcDisabledState).requests
          = calcDisabledState.requests
      ∧ handleKeyPress "Enter" ['-'] ['1'] AddOutcome.networkError calcDisabledState
          = handleAddition ['-'] ['1'] AddOutcome.networkError calcDisabledState := by
  have h := handleAddition_invalid ['-'] ['1'] AddOutcome.networkError
    calcDisabledState (Or.inl (by decide))
  exact ⟨h.1, h.2.2.2.1, h.2.2.2.2.2⟩

end Calc

/-- C5: both handlers enter the busy state before issuing their request
(the snapshot stored with the request shows the loading indicator up and
the control disabled, resp. the button disabled and relabelled), and on
every outcome — success, HTTP error, or network failure — the final state
has the busy indicators cleared and the triggering control re-enabled. -/
theorem busy_lifecycle (st : Resume.ResumeState) (file : Resume.File)
    (outcome : Resume.ParseOutcome) (cst : Calc.CalcState) (v1 v2 : List Char)
    (out2 : Calc.AddOutcome)
    (hsel : st.selectedFile = some file)
    (h1 : Calc.parseFloatDefined v1 = true)
    (h2 : Calc.parseFloatDefined v2 = true) :
    (Resume.handleParse outcome st).loadingShown = false
      ∧ (Resume.handleParse outcome st).parseDisabled = false
      ∧ (Resume.handleParse outcome st).requests = st.requests ++ [⟨file, true, true⟩]
      ∧ (Calc.handleAddition v1 v2 out2 cst).addDisabled = false
      ∧ (Calc.handleAddition v1 v2 out2 cst).addLabel = "Add"
      ∧ (Calc.handleAddition v1 v2 out2 cst).requests
          = cst.requests ++ [⟨true, "Calculating..."⟩] := by
  have hparse : (Resume.handleParse outcome st).loadingShown = false
      ∧ (Resume.handleParse outcome st).parseDisabled = false
      ∧ (Resume.handleParse outcome st).requests
          = st.requests ++ [⟨file, true, true⟩] := by
    unfold Resume.handleParse
    rw [hsel]
    cases outcome with
    | networkError =>
      simp [Resume.showLoading, Resume.hideError, Resume.hideResult,
        Resume.hideLoading, Resume.showError]
    | httpError s =>
      simp [Resume.showLoading, Resume.hideError, Resume.hideResult,
        Resume.hideLoading, Resume.showError]
    | ok body =>
      cases hsucc : body.success with
      | false =>
        simp [hsucc, Resume.showLoading, Resume.hideError, Resume.hideResult,
          Resume.hideLoading, Resume.showError]
      | true =>
        cases hrd : body.resume_data with
        | none =>
          simp [hsucc, hrd, Resume.showLoading, Resume.hideError,
            Resume.hideResult, Resume.hideLoading, Resume.showError]
        | some d =>
          simp [hsucc, hrd, Resume.showLoading, Resume.hideError,
            Resume.hideResult, Resume.hideLoading, Resume.displayResumeDataState]
  have hbtn : Calc.updateButtonState v1 v2 = false := by
    unfold Calc.updateButtonState
    rw [if_pos]
    have ht1 := Calc.jsTrim_ne_nil_of_parseFloatDefined v1 h1
    have ht2 := Calc.jsTrim_ne_nil_of_parseFloatDefined v2 h2
    simp [h1, h2, List.isEmpty_eq_false, ht1, ht2]
  have hadd : (Calc.handleAddition v1 v2 out2 cst).addDisabled = false
      ∧ (Calc.handleAddition v1 v2 out2 cst).addLabel = "Add"
      ∧ (Calc.handleAddition v1 v2 out2 cst).requests
          = cst.requests ++ [⟨true, "Calculating..."⟩] := by
    unfold Calc.handleAddition
    rw [if_neg (by simp [h1, h2])]
    cases out2 with
    | networkError => simp [Calc.calcShowError, hbtn]
    | httpError s => simp [Calc.calcShowError, hbtn]
    | ok r => simp [Calc.showResult, hbtn]
  exact ⟨hparse.1, hparse.2.1, hparse.2.2, hadd.1, hadd.2.1, hadd.2.2⟩

/-- C5 witness: a network failure on both apps, starting from concrete
states with a valid selected file and valid field values, ends with the
loading indicator hidden and both controls re-enabled, having sent exactly
one request each while busy. -/
theorem busy_lifecycle_witness :
    (Resume.handleParse Resume.ParseOutcome.networkError Resume.selectedState).loadingShown
        = false
      ∧ (Resume.handleParse Resume.ParseOutcome.networkError Resume.selectedState).parseDisabled
        = false
      ∧ (Resume.handleParse Resume.ParseOutcome.networkError Resume.selectedState).requests
        = Resume.selectedState.requests ++ [⟨Resume.pdfFile, true, true⟩]
      ∧ (Calc.handleAddition ['1'] ['2'] Calc.AddOutcome.networkError calcDisabledState).addDisabled
        = false
      ∧ (Calc.handleAddition ['1'] ['2'] Calc.AddOutcome.networkError calcDisabledState).addLabel
        = "Add"
      ∧ (Calc.handleAddition ['1'] ['2'] Calc.AddOutcome.networkError calcDisabledState).requests
        = calcDisabledState.requests ++ [⟨true, "Calculating..."⟩] :=
  busy_lifecycle Resume.selectedState Resume.pdfFile Resume.ParseOutcome.networkError
    calcDisabledState ['1'] ['2'] Calc.AddOutcome.networkError
    (by decide) (by decide) (by decide)

namespace Resume

/-- C4 (amended): a file with a non-PDF MIME type or a size over
10 × 1024 × 1024 bytes is rejected by `processFile` with a user-visible
message — the type message when the MIME type lacks `pdf` (even if the
file is also oversized), the size-specific message otherwise — while the
selected-file reference, the upload UI and the request list stay
unchanged. -/
theorem processFile_reject (f : File) (st : ResumeState)
    (h : ¬ jsIncludes f.type "pdf" = true ∨ f.size > 10 * 1024 * 1024) :
    (processFile f st).selectedFile = st.selectedFile
      ∧ (processFile f st).requests = st.requests
      ∧ (processFile f st).uploadAreaShown = st.uploadAreaShown
      ∧ (processFile f st).fileInfoShown = st.fileInfoShown
      ∧ (processFile f st).errorShown = true
      ∧ (processFile f st).errorMessageText
          = (if jsIncludes f.type "pdf" = true then "File size must be less than 10MB"
             else "Please select a PDF file") := by
  unfold processFile
  by_cases hpdf : jsIncludes f.type "pdf" = true
  · have hsize : f.size > 10 * 1024 * 1024 := by
      rcases h with h1 | h1
      · exact absurd hpdf h1
      · exact h1
    rw [if_neg (by simpa using hpdf), if_pos hsize]
    simp [showError, hpdf]
  · rw [if_pos (by simpa using hpdf)]
    simp [showError, hpdf]

/-- C4 counterexample: an oversized file whose MIME type is not PDF is
rejected with the type message, not the size-specific message the claim
promises for every oversized file. -/
theorem processFile_oversized_cex :
    oversizedTxt.size > 10 * 1024 * 1024
      ∧ (processFile oversizedTxt initialResumeState).errorMessageText
          ≠ "File size must be less than 10MB"
      ∧ (processFile oversizedTxt initialResumeState).errorMessageText
          = "Please select a PDF file" := by decide

/-- C4 witness: the oversized non-PDF file is rejected with no state
change and the selection left empty. -/
theorem processFile_reject_witness :
    (processFile oversizedTxt initialResumeState).selectedFile
        = initialResumeState.selectedFile
      ∧ (processFile oversizedTxt initialResumeState).requests
        = initialResumeState.requests
      ∧ (processFile oversizedTxt initialResumeState).errorShown = true := by
  have h := processFile_reject oversizedTxt initialResumeState (Or.inl (by decide))
  exact ⟨h.1, h.2.1, h.2.2.2.2.1⟩

/-- C6 (amended): for a selected file, a non-2xx `/parse-resume` status
yields the generic failure message; a 2xx body with `success` false
surfaces its `message` verbatim when present and non-empty and the
fallback `Failed to parse resume` when the message is absent or empty
(JavaScript falsiness); a 2xx body with `success` true and `resume_data`
present hands the payload to the renderer and shows no error. -/
theorem handleParse_response (st : ResumeState) (file : File) (s : Nat)
    (m : String) (rd1 rd2 : Option ResumeData) (msg2 msg3 : Option String)
    (d : ResumeData)
    (hsel : st.selectedFile = some file)
    (hm : m ≠ "")
    (hmsg2 : msg2 = none ∨ msg2 = some "") :
    ((handleParse (.httpError s) st).errorShown = true
      ∧ (handleParse (.httpError s) st).errorMessageText = genericParseError)
    ∧ ((handleParse (.ok ⟨false, some m, rd1⟩) st).errorShown = true
      ∧ (handleParse (.ok ⟨false, some m, rd1⟩) st).errorMessageText = m)
    ∧ ((handleParse (.ok ⟨false, msg2, rd2⟩) st).errorShown = true
      ∧ (handleParse (.ok ⟨false, msg2, rd2⟩) st).errorMessageText
          = "Failed to parse resume")
    ∧ ((handleParse (.ok ⟨true, msg3, some d⟩) st).errorShown = false
      ∧ (handleParse (.ok ⟨true, msg3, some d⟩) st).resultShown = true
      ∧ (handleParse (.ok ⟨true, msg3, some d⟩) st).resumeHtml
          = displayResumeData d) := by
  refine ⟨?_, ?_, ?_, ?_⟩
  · unfold handleParse
    rw [hsel]
    simp [showLoading, hideError, hideResult, hideLoading, showError]
  · unfold handleParse
    rw [hsel]
    simp [showLoading, hideError, hideResult, hideLoading, showError, hm]
  · unfold handleParse
    rw [hsel]
    rcases hmsg2 with h2 | h2 <;> subst h2 <;>
      simp [showLoading, hideError, hideResult, hideLoading, showError]
  · unfold handleParse
    rw [hsel]
    simp [showLoading, hideError, hideResult, hideLoading, displayResumeDataState]

/-- C6 witness: concrete instances of all four response branches from the
selected-file state. -/
theorem handleParse_response_witness :
    ((handleParse (.httpError 500) selectedState).errorShown = true
      ∧ (handleParse (.httpError 500) selectedState).errorMessageText = genericParseError)
    ∧ ((handleParse (.ok ⟨false, some "bad file", none⟩) selectedState).errorShown = true
      ∧ (handleParse (.ok ⟨false, some "bad file", none⟩) selectedState).errorMessageText
          = "bad file")
    ∧ ((handleParse (.ok ⟨false, none, none⟩) selectedState).errorShown = true
      ∧ (handleParse (.ok ⟨false, none, none⟩) selectedState).errorMessageText
          = "Failed to parse resume")
    ∧ ((handleParse (.ok ⟨true, none, some acmeResume⟩) selectedState).errorShown = false
      ∧ (handleParse (.ok ⟨true, none, some acmeResume⟩) selectedState).resultShown = true
      ∧ (handleParse (.ok ⟨true, none, some acmeResume⟩) selectedState).resumeHtml
          = displayResumeData acmeResume) :=
  handleParse_response selectedState pdfFile 500 "bad file" none none none none
    acmeResume rfl (by decide) (Or.inl rfl)

/-- C6 counterexample: a 2xx response with `success` false and `message`
present but empty is not surfaced verbatim — the code shows the generic
fallback instead of the (empty) message. -/
theorem handleParse_empty_message_cex :
    (handleParse (.ok ⟨false, some "", none⟩) selectedState).errorMessageText
        ≠ ""
      ∧ (handleParse (.ok ⟨false, some "", none⟩) selectedState).errorMessageText
        = "Failed to parse resume" := by decide

end Resume

namespace Resume

/-- C7: the rendered date value joins start and end with a spaced dash,
dropping whichever side is absent, and the whole `Dates:` line is omitted
when both sides are absent. -/
theorem datesLine_spec (s e : String) :
    joinDates s e = (if s = "" then e else if e = "" then s else s ++ " - " ++ e)
      ∧ (s = "" → e = "" → datesLineHtml s e = "") := by
  constructor
  · rcases eq_or_ne s "" with hs | hs <;> rcases eq_or_ne e "" with he | he
    · subst hs; subst he
      simp [joinDates, joinStrs]
    · subst hs
      have he' : (e != "") = true := bne_iff_ne.mpr he
      simp [joinDates, joinStrs, he', he]
    · subst he
      have hs' : (s != "") = true := bne_iff_ne.mpr hs
      simp [joinDates, joinStrs, hs', hs]
    · have hs' : (s != "") = true := bne_iff_ne.mpr hs
      have he' : (e != "") = true := bne_iff_ne.mpr he
      simp [joinDates, joinStrs, hs', he', hs, he]
  · intro hs he
    subst hs; subst he
    simp [datesLineHtml]

/-- C7 witness: with both dates absent the joined value is empty and the
line is omitted. -/
theorem datesLine_spec_witness :
    joinDates "" "" = "" ∧ datesLineHtml "" "" = "" :=
  ⟨by decide, (datesLine_spec "" "").2 rfl rfl⟩

/-- C8: rendering is a pure function of the payload — re-rendering the
same payload is idempotent on the state, the stored markup is exactly the
renderer's output, and the markup is independent of whatever was rendered
before (full replacement, no accumulation). -/
theorem render_idempotent (d : ResumeData) (st st2 : ResumeState) :
    displayResumeDataState d (displayResumeDataState d st)
        = displayResumeDataState d st
      ∧ (displayResumeDataState d st).resumeHtml = displayResumeData d
      ∧ (displayResumeDataState d st).resumeHtml
          = (displayResumeDataState d st2).resumeHtml :=
  ⟨rfl, rfl, rfl⟩

theorem handleParse_selectedFile (outcome : ParseOutcome) (st : ResumeState) :
    (handleParse outcome st).selectedFile = st.selectedFile := by
  unfold handleParse
  cases hsel : st.selectedFile with
  | none => simp [hsel, showError]
  | some file =>
    cases outcome with
    | networkError =>
      simp [hsel, showLoading, hideError, hideResult, hideLoading, showError]
    | httpError s =>
      simp [hsel, showLoading, hideError, hideResult, hideLoading, showError]
    | ok body =>
      cases hsucc : body.success with
      | false =>
        simp [hsel, hsucc, showLoading, hideError, hideResult, hideLoading, showError]
      | true =>
        cases hrd : body.resume_data with
        | none =>
          simp [hsel, hsucc, hrd, showLoading, hideError, hideResult, hideLoading,
            showError]
        | some d =>
          simp [hsel, hsucc, hrd, showLoading, hideError, hideResult, hideLoading,
            displayResumeDataState]

/-- C10: every operation of the resume script preserves the invariant
that the selected-file reference is empty or holds a PDF-typed file of at
most 10 × 1024 × 1024 bytes; `processFile` stores a file only after both
checks pass, `resetUpload` clears the reference, and the initial state
satisfies the invariant. -/
theorem fileInvariant_preserved (st : ResumeState) (f : File)
    (o : ParseOutcome) (m : String) (d : ResumeData)
    (hinv : fileInvariant st) :
    fileInvariant (processFile f st)
      ∧ fileInvariant (handleParse o st)
      ∧ fileInvariant (resetUpload st)
      ∧ fileInvariant (showError m st)
      ∧ fileInvariant (hideError st)
      ∧ fileInvariant (hideResult st)
      ∧ fileInvariant (showLoading st)
      ∧ fileInvariant (hideLoading st)
      ∧ fileInvariant (displayResumeDataState d st)
      ∧ fileInvariant initialResumeState := by
  refine ⟨?_, ?_, ?_, ?_, ?_, ?_, ?_, ?_, ?_, ?_⟩
  · intro g hg
    unfold processFile at hg
    by_cases hpdf : jsIncludes f.type "pdf" = true
    · by_cases hsize : f.size > 10 * 1024 * 1024
      · rw [if_neg (by simpa using hpdf), if_pos hsize] at hg
        exact hinv g hg
      · rw [if_neg (by simpa using hpdf), if_neg hsize] at hg
        simp [hideResult, hideError] at hg
        subst hg
        exact ⟨hpdf, by omega⟩
    · rw [if_pos (by simpa using hpdf)] at hg
      exact hinv g hg
  · intro g hg
    rw [handleParse_selectedFile] at hg
    exact hinv g hg
  · intro g hg
    simp [resetUpload, hideResult, hideError] at hg
  · intro g hg; exact hinv g hg
  · intro g hg; exact hinv g hg
  · intro g hg; exact hinv g hg
  · intro g hg; exact hinv g hg
  · intro g hg; exact hinv g hg
  · intro g hg; exact hinv g hg
  · intro g hg
    simp [initialResumeState] at hg

/-- C10 witness: starting from the empty initial state, selecting a valid
PDF and then running every other operation keeps the invariant. -/
theorem fileInvariant_preserved_witness :
    fileInvariant (processFile pdfFile initialResumeState)
      ∧ fileInvariant (handleParse ParseOutcome.networkError initialResumeState)
      ∧ fileInvariant (resetUpload initialResumeState)
      ∧ fileInvariant initialResumeState := by
  have h := fileInvariant_preserved initialResumeState pdfFile
    ParseOutcome.networkError "msg" acmeResume
    (fun g hg => by simp [initialResumeState] at hg)
  exact ⟨h.1, h.2.1, h.2.2.1, h.2.2.2.2.2.2.2.2.2⟩

end Resume

namespace Resume

theorem map_fst_if (c : Prop) [Decidable c] (t b : String) :
    ((if c then [(t, b)] else []) : List (String × String)).map Prod.fst
      = if c then [t] else [] := by
  split <;> simp

theorem if_singleton_append (c : Prop) [Decidable c] (t : String)
    (l1 l2 : List String) (h : l1 = l2) :
    (if c then [t] else []) ++ l1 = if c then t :: l2 else l2 := by
  split <;> simp [h]

theorem catP1 (d : ResumeData) :
    categoryPresent d "Personal Information"
      = decide (d.full_name ≠ "" ∨ d.contact_info.length > 0) := rfl

theorem catP2 (d : ResumeData) :
    categoryPresent d "Summary" = decide (d.summary ≠ "") := rfl

theorem catP3 (d : ResumeData) :
    categoryPresent d "Education" = decide (d.education.length > 0) := rfl

theorem catP4 (d : ResumeData) :
    categoryPresent d "Work Experience"
      = decide (d.work_experience.length > 0) := rfl

theorem catP5 (d : ResumeData) :
    categoryPresent d "Skills" = decide (d.skills.length > 0) := rfl

theorem catP6 (d : ResumeData) :
    categoryPresent d "Projects" = decide (d.projects.length > 0) := rfl

theorem catP7 (d : ResumeData) :
    categoryPresent d "Certifications"
      = decide (d.certifications.length > 0) := rfl

theorem catP8 (d : ResumeData) :
    categoryPresent d "Languages" = decide (d.languages.length > 0) := rfl

/-- C1: the renderer's output is exactly the concatenation of one labeled
section per emitted category, and the emitted section titles are the fixed
order `Personal Information, Summary, Education, Work Experience, Skills,
Projects, Certifications, Languages` filtered to the categories whose
backing field is non-empty — so every empty category is omitted entirely. -/
theorem display_sections (d : ResumeData) :
    displayResumeData d
        = strConcat ((sections d).map (fun p => sectionHtml p.1 p.2))
      ∧ (sections d).map Prod.fst = sectionTitlesOrder.filter (categoryPresent d) := by
  constructor
  · rw [sections]
    simp only [List.map_append, strConcat_append]
    rw [← strConcat_section_if, ← strConcat_section_if, ← strConcat_section_if,
      ← strConcat_section_if, ← strConcat_section_if, ← strConcat_section_if,
      ← strConcat_section_if, ← strConcat_section_if]
    rfl
  · rw [sections, sectionTitlesOrder]
    simp only [List.map_append]
    rw [map_fst_if, map_fst_if, map_fst_if, map_fst_if, map_fst_if, map_fst_if,
      map_fst_if, map_fst_if]
    rw [List.filter_cons, List.filter_cons, List.filter_cons, List.filter_cons,
      List.filter_cons, List.filter_cons, List.filter_cons, List.filter_cons,
      List.filter_nil]
    rw [catP1, catP2, catP3, catP4, catP5, catP6, catP7, catP8]
    simp only [decide_eq_true_eq]
    simp only [List.append_assoc]
    refine if_singleton_append _ _ _ _ ?_
    refine if_singleton_append _ _ _ _ ?_
    refine if_singleton_append _ _ _ _ ?_
    refine if_singleton_append _ _ _ _ ?_
    refine if_singleton_append _ _ _ _ ?_
    refine if_singleton_append _ _ _ _ ?_
    refine if_singleton_append _ _ _ _ ?_
    rfl

end Resume
